import Mathlib

/-!
Verification of the orchestrator supervision-and-decision engine.

Shallow embedding of the core logic of `orchestrator/`:
  * `models.py`        — enumerations and record types,
  * `review_engine.py` — review triggering and the decision reduction,
  * `coordinator.py`   — the per-worker state tracker and completion check,
  * `workers.py`       — event ingestion (`read_events` / `_parse_event`),
  * `recovery.py`      — error-signature detection.

Machine integers are modelled as `Nat`/`Int` (Python integers are unbounded,
so no wrap-around is needed).  Timestamps are modelled as `Nat` ticks where
the logic actually compares them, and omitted from records where no claim
inspects them.  Python strings are modelled as `String`, with the handful of
`str` operations used by the source re-implemented over the character list
so that everything reduces by computation.
-/

namespace Orchestrator

/-! ### String helpers (models of the Python `str` operations used) -/

/-- Check whether `sub` occurs as a contiguous infix of `l`. -/
def listInfix (sub : List Char) : List Char → Bool
  | [] => sub.isEmpty
  | c :: t => sub.isPrefixOf (c :: t) || listInfix sub t

/-- Model of Python `sub in s` (substring containment). -/
def strContains (s sub : String) : Bool :=
  listInfix sub.data s.data

/-- Model of Python `s.lower()` (ASCII case folding suffices for the
patterns appearing in the source). -/
def strLower (s : String) : String :=
  String.mk (s.data.map Char.toLower)

/-- Model of Python `s.strip()`. -/
def strStrip (s : String) : String :=
  String.mk (((s.data.dropWhile Char.isWhitespace).reverse.dropWhile
    Char.isWhitespace).reverse)

/-- Model of Python `s[:n]` (prefix of at most `n` characters). -/
def strTake (s : String) (n : Nat) : String :=
  String.mk (s.data.take n)

/-- Case-insensitive substring search: model of
`re.search(pattern, text, re.IGNORECASE)` for the literal (metacharacter-free)
patterns used in `recovery.py`. -/
def searchIgnoreCase (pattern text : String) : Bool :=
  strContains (strLower text) (strLower pattern)

/-! ### Enumerations (`models.py`) -/

/-- `AgentName` — the three fixed worker roles. -/
inductive AgentName where
  | GEMINI
  | CODEX
  | CLAUDE
deriving DecidableEq, Repr

/-- `EventType` — the closed ten-member event-kind enumeration. -/
inductive EventType where
  | STATUS
  | PROGRESS
  | FINDING
  | TASK
  | BLOCKER
  | MILESTONE
  | REVIEW
  | ERROR
  | RECOVERY
  | PERMISSION_BLOCKER
deriving DecidableEq, Repr

/-- `Verdict` — peer review verdict types. -/
inductive Verdict where
  | APPROVED
  | CONCERNS
  | BLOCKER
deriving DecidableEq, Repr

/-- `Action` — orchestrator decision actions. -/
inductive Action where
  | CONTINUE
  | LOG_WARNING
  | PAUSE_AND_CLARIFY
  | STOP_AND_ESCALATE
deriving DecidableEq, Repr

/-- `WorkerStatus` — worker agent status. -/
inductive WorkerStatus where
  | IDLE
  | RUNNING
  | BLOCKED
  | COMPLETED
  | FAILED
  | RECOVERING
deriving DecidableEq, Repr

/-! ### JSON values

`json.loads` produces dicts, lists, strings, numbers, booleans and `None`.
Numbers are modelled as `Int` (no claim involves non-integral numbers).
Objects keep their fields as an association list. -/

inductive Json where
  | null
  | bool (b : Bool)
  | num (n : Int)
  | str (s : String)
  | arr (elems : List Json)
  | obj (fields : List (String × Json))

/-- Python truthiness of a JSON-derived value: models `if not x`. -/
def Json.falsy : Json → Bool
  | .null => true
  | .bool b => !b
  | .num n => n == 0
  | .str s => s == ""
  | .arr xs => xs.isEmpty
  | .obj fs => fs.isEmpty

/-- Model of `d.get(key)` on a decoded value.  On a non-dict, Python raises
`AttributeError`, which the sole caller (`_parse_event`) catches and turns
into `None`; returning `none` here yields the same observable outcome. -/
def Json.get : Json → String → Option Json
  | .obj fs, k => fs.lookup k
  | _, _ => none

mutual

/-- Model of Python `repr` on a JSON-derived value (single quotes for
strings; exotic escape sequences are out of scope for the inputs the
source ever stringifies). -/
def Json.pyRepr : Json → String
  | .null => "None"
  | .bool true => "True"
  | .bool false => "False"
  | .num n => toString n
  | .str s => "\x27" ++ s ++ "\x27"
  | .arr xs => "[" ++ Json.pyReprSeq xs ++ "]"
  | .obj fs => "\x7b" ++ Json.pyReprFields fs ++ "\x7d"

/-- `repr` of list elements, comma-separated. -/
def Json.pyReprSeq : List Json → String
  | [] => ""
  | [x] => Json.pyRepr x
  | x :: xs => Json.pyRepr x ++ ", " ++ Json.pyReprSeq xs

/-- `repr` of dict entries, comma-separated. -/
def Json.pyReprFields : List (String × Json) → String
  | [] => ""
  | [(k, v)] => "\x27" ++ k ++ "\x27: " ++ Json.pyRepr v
  | (k, v) :: fs =>
      "\x27" ++ k ++ "\x27: " ++ Json.pyRepr v ++ ", " ++ Json.pyReprFields fs

end

/-- Model of Python `str` on a JSON-derived value: identical to `repr`
except on strings themselves. -/
def Json.pyStr : Json → String
  | .str s => s
  | j => Json.pyRepr j

/-! ### Records (`models.py`)

`EventPayload.progress` is validated by pydantic to `0 ≤ progress ≤ 100`;
timestamps are omitted (no claim inspects them). -/

/-- `EventPayload` — payload of an event. -/
structure EventPayload where
  text : String
  progress : Option Nat := none
  file : Option String := none
  data : Option (List (String × Json)) := none

/-- `Event` — one status record emitted by a worker (timestamp omitted). -/
structure Event where
  type : EventType
  agent : AgentName
  payload : EventPayload

/-- `PeerReview` — a peer review response (timestamp omitted). -/
structure PeerReview where
  reviewer : AgentName
  target : AgentName
  verdict : Verdict
  issues : List String := []
  recommendations : List String := []

/-- `OrchestratorDecision` — decision produced by the review engine
(timestamp omitted). -/
structure OrchestratorDecision where
  action : Action
  reason : String
  next_steps : String
deriving DecidableEq, Repr

/-- `WorkerState` — the fields of `models.WorkerState` that the state
tracker reads or writes (`name`, `task`, `process_id`, `start_time` are
carried unchanged by the tracker and omitted here). -/
structure WorkerState where
  status : WorkerStatus
  progress : Nat := 0
  error_count : Nat := 0
  last_event : Option Event := none

/-! ### Review engine (`review_engine.py`) -/

/-- `ReviewEngine.evaluate_reviews` — the fixed-precedence decision
reduction (lines 135–186 of `review_engine.py`).  The appends to
`self.decisions` / `self.last_review_time` are bookkeeping on the engine
object; the returned decision is modelled here. -/
def evaluate_reviews (reviews : List PeerReview) : OrchestratorDecision :=
  let blockers := reviews.filter (fun r => r.verdict == Verdict.BLOCKER)
  let concerns := reviews.filter (fun r => r.verdict == Verdict.CONCERNS)
  let approved := reviews.filter (fun r => r.verdict == Verdict.APPROVED)
  if blockers.length > 0 then
    { action := Action.STOP_AND_ESCALATE
      reason := toString blockers.length ++ " blocker(s) detected"
      next_steps := "Present issue to user, await decision" }
  else if concerns.length ≥ 2 then
    { action := Action.PAUSE_AND_CLARIFY
      reason := "Majority have concerns"
      next_steps := "Orchestrator clarifies requirements, agents resume" }
  else if concerns.length == 1 then
    { action := Action.LOG_WARNING
      reason := "One agent has concerns"
      next_steps := "Continue but monitor closely, review again in 10 min" }
  else if approved.length == reviews.length then
    { action := Action.CONTINUE
      reason := "All reviews positive"
      next_steps := "Continue work, next review on event trigger" }
  else
    { action := Action.LOG_WARNING
      reason := "Mixed or unclear review results"
      next_steps := "Continue with caution" }

/-- `ReviewEngine.should_trigger_review` (lines 35–66).  `last_review_time`
and `now` are wall-clock ticks in seconds (`datetime.utcnow()`); the
15-minute `timedelta` bound becomes `900` seconds.  `events` is the
per-agent event map, modelled as an association list in iteration order. -/
def should_trigger_review (last_review_time : Option Nat) (now : Nat)
    (events : List (AgentName × List Event)) (force : Bool) : Bool :=
  if force then
    true
  else if events.any (fun p => p.2.any (fun e =>
      (e.type == EventType.MILESTONE || e.type == EventType.BLOCKER)
      || strContains (strLower e.payload.text) "review")) then
    true
  else
    match last_review_time with
    | some t => decide (now - t > 900)
    | none => false

/-! ### Worker state tracker (`coordinator.py`, lines 248–314)

`Coordinator._update_worker_states_from_events` folds one agent's event
batch into its `WorkerState` and then reconciles the status against process
liveness.  The `sync_progress`/`sync_status` closures mirror every write
into the `WorkerProcess.state` copy; since lines 310–313 then copy the
session-side state wholesale onto the process-side state, a single record
suffices to model both. -/

/-- The `sync_progress` closure: absorb a progress value as a maximum. -/
def sync_progress (s : WorkerState) (value : Nat) : WorkerState :=
  { s with progress := max s.progress value }

/-- The `sync_status` closure: overwrite the status. -/
def sync_status (s : WorkerState) (status : WorkerStatus) : WorkerState :=
  { s with status := status }

/-- The body of the `for event in events` loop (lines 269–297): fold one
event into the worker state. -/
def apply_event (s : WorkerState) (e : Event) : WorkerState :=
  let s := { s with last_event := some e }
  let s :=
    match e.payload.progress with
    | some value => sync_progress s value
    | none => s
  let s :=
    match e.type with
    | EventType.PROGRESS => sync_status s WorkerStatus.RUNNING
    | EventType.STATUS => sync_status s WorkerStatus.RUNNING
    | EventType.BLOCKER => sync_status s WorkerStatus.BLOCKED
    | EventType.ERROR =>
        let s := { s with error_count := s.error_count + 1 }
        if strContains (strLower e.payload.text) "blocker" then
          sync_status s WorkerStatus.BLOCKED
        else s
    | EventType.MILESTONE => sync_progress s (min (s.progress + 20) 90)
    | EventType.RECOVERY => sync_status s WorkerStatus.RECOVERING
    | _ => s
  if strContains (strLower e.payload.text) "complete"
      || strContains (strLower e.payload.text) "done" then
    sync_progress (sync_status s WorkerStatus.COMPLETED) 100
  else s

/-- Fold a whole event batch, in arrival order. -/
def fold_events (s : WorkerState) (events : List Event) : WorkerState :=
  events.foldl apply_event s

/-- Liveness reconciliation after the fold (lines 299–307).  `alive` is
`none` when `worker_manager.get_worker` returns no process handle, and
`some worker.is_running()` otherwise. -/
def resolve_liveness (s : WorkerState) (alive : Option Bool) : WorkerState :=
  match alive with
  | some false =>
      if s.status = WorkerStatus.RUNNING then
        if s.progress ≥ 90 then sync_status s WorkerStatus.COMPLETED
        else sync_status s WorkerStatus.FAILED
      else s
  | _ => s

/-- One full per-worker update: fold the batch, then reconcile liveness. -/
def update_worker_state (s : WorkerState) (events : List Event)
    (alive : Option Bool) : WorkerState :=
  resolve_liveness (fold_events s events) alive

/-! ### Completion check (`coordinator.py`, lines 440–458)

`Coordinator.check_completion`.  `workers` is the session's worker map in
iteration order; `alive name` models
`worker_manager.get_worker(name)` / `worker.is_running()` exactly as in
`resolve_liveness` (`none` = no process handle registered). -/

/-- `Coordinator.check_completion`. -/
def check_completion (workers : List (AgentName × WorkerState))
    (alive : AgentName → Option Bool) : Bool :=
  if workers.isEmpty then
    false
  else
    workers.all (fun p =>
      if p.2.status == WorkerStatus.COMPLETED
          || p.2.status == WorkerStatus.FAILED then
        true
      else
        match alive p.1 with
        | some true => false
        | _ => true)

/-- The completion condition as the specification words it: every worker's
status is completed-or-failed AND no live worker process remains running
(compared against `check_completion` in the refinement claim). -/
def check_completion_spec (workers : List (AgentName × WorkerState))
    (alive : AgentName → Option Bool) : Bool :=
  workers.all (fun p =>
    p.2.status == WorkerStatus.COMPLETED || p.2.status == WorkerStatus.FAILED)
  && workers.all (fun p => !(alive p.1 == some true))

/-! ### Event ingestion (`workers.py`, lines 162–250)

`WorkerProcess.read_events` iterates over the new lines of the worker's
JSONL file.  A raw line is modelled together with the outcome of
`json.loads` on its stripped text (`none` = `json.JSONDecodeError`); the
decoder itself is Python library code, not part of this repository. -/

/-- A raw input line paired with its decode outcome. -/
structure RawLine where
  text : String
  decoded : Option Json

/-- `EventType(value)` on a decoded value: succeeds exactly on the ten
string values of the closed enumeration (a non-string raises `ValueError`,
as does an unknown string). -/
def eventTypeOf : Json → Option EventType
  | .str "status" => some EventType.STATUS
  | .str "progress" => some EventType.PROGRESS
  | .str "finding" => some EventType.FINDING
  | .str "task" => some EventType.TASK
  | .str "blocker" => some EventType.BLOCKER
  | .str "milestone" => some EventType.MILESTONE
  | .str "review" => some EventType.REVIEW
  | .str "error" => some EventType.ERROR
  | .str "recovery" => some EventType.RECOVERY
  | .str "permission_blocker" => some EventType.PERMISSION_BLOCKER
  | _ => none

/-- Pydantic coercion of a required `str` field (v1 semantics: numbers and
booleans are coerced via `str`, containers and `None` are rejected). -/
def coerceStrField : Json → Option String
  | .str s => some s
  | .num n => some (toString n)
  | .bool true => some "True"
  | .bool false => some "False"
  | _ => none

/-- Validation of `progress: Optional[int] = Field(None, ge=0, le=100)`:
absent or `null` is `none`; an integer must lie in `[0, 100]`; anything
else fails validation. -/
def coerceProgressField : Option Json → Option (Option Nat)
  | none => some none
  | some .null => some none
  | some (.num n) =>
      if 0 ≤ n ∧ n ≤ 100 then some (some n.toNat) else none
  | some _ => none

/-- Validation of `file: Optional[str]`. -/
def coerceFileField : Option Json → Option (Option String)
  | none => some none
  | some .null => some none
  | some (.str s) => some (some s)
  | some _ => none

/-- Validation of `data: Optional[Dict[str, Any]]`. -/
def coerceDataField : Option Json → Option (Option (List (String × Json)))
  | none => some none
  | some .null => some none
  | some (.obj fs) => some (some fs)
  | some _ => none

/-- `EventPayload(**payload_data)` — pydantic construction; `none` models a
`ValidationError` (caught by the enclosing handler in `_parse_event`).
Extra keys are ignored, as pydantic does by default. -/
def validatePayload (fields : List (String × Json)) : Option EventPayload := do
  let textJ ← fields.lookup "text"
  let text ← coerceStrField textJ
  let progress ← coerceProgressField (fields.lookup "progress")
  let file ← coerceFileField (fields.lookup "file")
  let data ← coerceDataField (fields.lookup "data")
  some { text := text, progress := progress, file := file, data := data }

/-- `WorkerProcess._parse_event` (lines 202–250): parse one decoded value
into an `Event`, or reject it (`none`).  The timestamp extraction of lines
234–240 only fills the omitted timestamp field and is dropped with it. -/
def parse_event (agent : AgentName) (data : Json) : Option Event :=
  match data.get "type" with
  | none => none
  | some event_type =>
    if event_type.falsy then
      none
    else
      match eventTypeOf event_type with
      | none => none
      | some event_type_enum =>
        let payload_data : List (String × Json) :=
          match (data.get "payload").getD (Json.obj []) with
          | .str s => [("text", Json.str s)]
          | .obj fs => fs
          | other => [("text", Json.str other.pyStr)]
        let payload_data :=
          if (payload_data.lookup "text").isSome then payload_data
          else
            payload_data ++
              [("text", (data.get "message").getD (Json.str data.pyStr))]
        match validatePayload payload_data with
        | none => none
        | some payload =>
            some { type := event_type_enum, agent := agent, payload := payload }

/-- The body of the `for line in f` loop of `read_events` (lines 175–193):
skip blank lines; turn a decode failure into one synthetic error event
carrying the stripped line truncated to 200 characters; otherwise keep the
parsed event if `_parse_event` accepts it. -/
def stepLine (agent : AgentName) (events : List Event) (l : RawLine) :
    List Event :=
  let line := strStrip l.text
  if line == "" then events
  else
    match l.decoded with
    | none =>
        events ++
          [{ type := EventType.ERROR, agent := agent,
             payload := { text := "Malformed JSON: " ++ strTake line 200 } }]
    | some data =>
        match parse_event agent data with
        | none => events
        | some event => events ++ [event]

/-- `WorkerProcess.read_events` restricted to its pure core: the events
produced from the new lines since the saved offset (the offset bookkeeping
and file I/O carry no decision logic). -/
def read_events (agent : AgentName) (lines : List RawLine) : List Event :=
  lines.foldl (stepLine agent) []

/-! ### Recovery engine detection (`recovery.py`, lines 27–91) -/

/-- `PermissionRecoveryEngine.ERROR_PATTERNS` — per-agent failure
signatures (all literal, metacharacter-free). -/
def ERROR_PATTERNS : AgentName → List String
  | AgentName.GEMINI =>
      ["Path must be within one of the workspace directories",
       "File path must be within one of the workspace directories",
       "Permission denied",
       "Authentication required"]
  | AgentName.CODEX =>
      ["Not inside a trusted directory",
       "Permission denied",
       "Repository check failed",
       "not a git repository"]
  | AgentName.CLAUDE =>
      ["Permission denied",
       "Access blocked"]

/-- The tag classification inside the pattern loop of `_detect_error_type`
(lines 83–89); `none` makes the loop continue with the next pattern. -/
def classify_match (pattern error_text : String) : Option String :=
  if strContains error_text "workspace directories"
      || strContains pattern "workspace directories" then
    some "gemini_permissions"
  else if strContains error_text "trusted directory"
      || strContains error_text "git repository" then
    some "codex_git_check"
  else if strContains error_text "Permission denied" then
    some "generic_permission"
  else
    none

/-- `PermissionRecoveryEngine._detect_error_type` (lines 77–91). -/
def detect_error_type (agent_name : AgentName) (error_text : String) :
    Option String :=
  (ERROR_PATTERNS agent_name).findSome? (fun pattern =>
    if searchIgnoreCase pattern error_text then
      classify_match pattern error_text
    else none)

/-- `PermissionRecoveryEngine.check_for_errors` (lines 57–75): scan the
structured `error` events first, then the raw stderr lines. -/
def check_for_errors (agent : AgentName) (events : List Event)
    (stderr_lines : List String) : Option String :=
  match events.findSome? (fun e =>
      if e.type == EventType.ERROR then
        detect_error_type agent e.payload.text
      else none) with
  | some error_type => some error_type
  | none => stderr_lines.findSome? (detect_error_type agent)

/-! ### Helper notions and lemmas for the proofs -/

/-- Number of reviews in the list carrying a given verdict (the length of
the corresponding filter in `evaluate_reviews`). -/
def verdictCount (v : Verdict) (reviews : List PeerReview) : Nat :=
  (reviews.filter (fun r => r.verdict == v)).length

/-- `evaluate_reviews` expressed purely through the verdict counts and the
list length (this is how the source computes it). -/
def decision_of_counts (b c a n : Nat) : OrchestratorDecision :=
  if b > 0 then
    { action := Action.STOP_AND_ESCALATE
      reason := toString b ++ " blocker(s) detected"
      next_steps := "Present issue to user, await decision" }
  else if c ≥ 2 then
    { action := Action.PAUSE_AND_CLARIFY
      reason := "Majority have concerns"
      next_steps := "Orchestrator clarifies requirements, agents resume" }
  else if c == 1 then
    { action := Action.LOG_WARNING
      reason := "One agent has concerns"
      next_steps := "Continue but monitor closely, review again in 10 min" }
  else if a == n then
    { action := Action.CONTINUE
      reason := "All reviews positive"
      next_steps := "Continue work, next review on event trigger" }
  else
    { action := Action.LOG_WARNING
      reason := "Mixed or unclear review results"
      next_steps := "Continue with caution" }

lemma evaluate_reviews_eq_counts (reviews : List PeerReview) :
    evaluate_reviews reviews =
      decision_of_counts (verdictCount Verdict.BLOCKER reviews)
        (verdictCount Verdict.CONCERNS reviews)
        (verdictCount Verdict.APPROVED reviews) reviews.length := rfl

lemma verdictCount_cons (v : Verdict) (r : PeerReview) (t : List PeerReview) :
    verdictCount v (r :: t) =
      verdictCount v t + (if r.verdict = v then 1 else 0) := by
  simp only [verdictCount, List.filter_cons]
  split <;> rename_i h <;> simp_all

/-- Every review carries exactly one of the three verdicts, so the three
counts partition the list. -/
lemma verdictCount_partition (reviews : List PeerReview) :
    verdictCount Verdict.BLOCKER reviews + verdictCount Verdict.CONCERNS reviews
      + verdictCount Verdict.APPROVED reviews = reviews.length := by
  induction reviews with
  | nil => rfl
  | cons r t ih =>
      rw [List.length_cons, ← ih, verdictCount_cons, verdictCount_cons,
        verdictCount_cons]
      cases r.verdict <;> simp <;> omega

lemma verdictCount_perm {l₁ l₂ : List PeerReview} (h : l₁.Perm l₂)
    (v : Verdict) : verdictCount v l₁ = verdictCount v l₂ :=
  (h.filter _).length_eq

lemma verdictCount_eq_zero {v : Verdict} {reviews : List PeerReview}
    (h : ∀ r ∈ reviews, r.verdict ≠ v) : verdictCount v reviews = 0 := by
  simp only [verdictCount, List.length_eq_zero, List.filter_eq_nil_iff]
  intro r hr
  simpa using h r hr

/-- C1: the decision reduction applies the four precedence rules in order,
first match winning, and the resulting decision is invariant under
permutation of the review list (it depends only on the verdict multiset). -/
theorem claim1_decision_reduction (reviews : List PeerReview) :
    (0 < verdictCount Verdict.BLOCKER reviews →
      evaluate_reviews reviews =
        { action := Action.STOP_AND_ESCALATE
          reason := toString (verdictCount Verdict.BLOCKER reviews)
            ++ " blocker(s) detected"
          next_steps := "Present issue to user, await decision" })
    ∧ (verdictCount Verdict.BLOCKER reviews = 0 →
        2 ≤ verdictCount Verdict.CONCERNS reviews →
        (evaluate_reviews reviews).action = Action.PAUSE_AND_CLARIFY)
    ∧ (verdictCount Verdict.BLOCKER reviews = 0 →
        verdictCount Verdict.CONCERNS reviews = 1 →
        (evaluate_reviews reviews).action = Action.LOG_WARNING)
    ∧ ((∀ r ∈ reviews, r.verdict = Verdict.APPROVED) →
        (evaluate_reviews reviews).action = Action.CONTINUE)
    ∧ (∀ reviews₂, reviews.Perm reviews₂ →
        evaluate_reviews reviews = evaluate_reviews reviews₂) := by
  refine ⟨?_, ?_, ?_, ?_, ?_⟩
  · intro hb
    rw [evaluate_reviews_eq_counts, decision_of_counts, if_pos hb]
  · intro hb hc
    rw [evaluate_reviews_eq_counts, decision_of_counts]
    rw [if_neg (by omega), if_pos hc]
  · intro hb hc
    rw [evaluate_reviews_eq_counts, decision_of_counts]
    rw [if_neg (by omega), if_neg (by omega), if_pos (by simp [hc])]
  · intro hall
    have hb : verdictCount Verdict.BLOCKER reviews = 0 :=
      verdictCount_eq_zero (fun r hr => by simp [hall r hr])
    have hc : verdictCount Verdict.CONCERNS reviews = 0 :=
      verdictCount_eq_zero (fun r hr => by simp [hall r hr])
    have ha : verdictCount Verdict.APPROVED reviews = reviews.length := by
      have := verdictCount_partition reviews
      omega
    rw [evaluate_reviews_eq_counts, decision_of_counts]
    rw [if_neg (by omega), if_neg (by omega), if_neg (by simp [hc]),
      if_pos (by simp [ha])]
  · intro reviews₂ hperm
    rw [evaluate_reviews_eq_counts, evaluate_reviews_eq_counts,
      verdictCount_perm hperm, verdictCount_perm hperm,
      verdictCount_perm hperm, hperm.length_eq]

/-- Witness for C1: a list with one blocker and one approved verdict takes
rule 1, and the decision is unchanged under swapping the two reviews. -/
theorem claim1_witness :
    evaluate_reviews
        [{ reviewer := AgentName.CODEX, target := AgentName.GEMINI,
           verdict := Verdict.BLOCKER },
         { reviewer := AgentName.GEMINI, target := AgentName.CLAUDE,
           verdict := Verdict.APPROVED }] =
      { action := Action.STOP_AND_ESCALATE
        reason := "1 blocker(s) detected"
        next_steps := "Present issue to user, await decision" } := by
  have h := (claim1_decision_reduction
    [{ reviewer := AgentName.CODEX, target := AgentName.GEMINI,
       verdict := Verdict.BLOCKER },
     { reviewer := AgentName.GEMINI, target := AgentName.CLAUDE,
       verdict := Verdict.APPROVED }]).1 (by decide)
  simpa using h

/-- C2 counterexample: evaluating an empty list of reviews yields action
`CONTINUE` (rule 4 fires because `0 == 0`), not `LOG_WARNING` as the claim
states. -/
theorem claim2_counterexample :
    (evaluate_reviews []).action = Action.CONTINUE
    ∧ (evaluate_reviews []).action ≠ Action.LOG_WARNING
    ∧ (evaluate_reviews []).reason ≠ "Mixed or unclear review results" := by
  decide

/-- C2 amended: a verdict set matched by none of the first three rules and
containing no verdict other than `approved` — which, with the three-member
verdict enumeration, is every set with no blockers and no concerns,
including the empty set — always matches rule 4 and yields `CONTINUE`; the
fifth (mixed/unclear) branch is unreachable. -/
theorem claim2_amended_rule4_covers (reviews : List PeerReview)
    (hb : verdictCount Verdict.BLOCKER reviews = 0)
    (hc : verdictCount Verdict.CONCERNS reviews = 0) :
    evaluate_reviews reviews =
      { action := Action.CONTINUE
        reason := "All reviews positive"
        next_steps := "Continue work, next review on event trigger" } := by
  have ha : verdictCount Verdict.APPROVED reviews = reviews.length := by
    have := verdictCount_partition reviews
    omega
  rw [evaluate_reviews_eq_counts, decision_of_counts]
  rw [if_neg (by omega), if_neg (by omega), if_neg (by simp [hc]),
    if_pos (by simp [ha])]

/-- Witness for the amended C2: the empty review list yields `CONTINUE`. -/
theorem claim2_witness :
    evaluate_reviews [] =
      { action := Action.CONTINUE
        reason := "All reviews positive"
        next_steps := "Continue work, next review on event trigger" } :=
  claim2_amended_rule4_covers [] rfl rfl

lemma apply_event_progress_mono (s : WorkerState) (e : Event) :
    s.progress ≤ (apply_event s e).progress := by
  cases hp : e.payload.progress <;> cases ht : e.type <;>
    simp only [apply_event, hp, ht, sync_progress, sync_status] <;>
    split_ifs <;> simp

lemma fold_events_progress_mono (s : WorkerState) (events : List Event) :
    s.progress ≤ (fold_events s events).progress := by
  induction events generalizing s with
  | nil => exact Nat.le_refl _
  | cons e t ih =>
      exact Nat.le_trans (apply_event_progress_mono s e) (ih (apply_event s e))

lemma resolve_liveness_progress (s : WorkerState) (alive : Option Bool) :
    (resolve_liveness s alive).progress = s.progress := by
  rcases alive with _ | b
  · rfl
  · cases b
    · simp only [resolve_liveness, sync_status]
      split_ifs <;> rfl
    · rfl

lemma update_worker_state_progress_mono (s : WorkerState)
    (events : List Event) (alive : Option Bool) :
    s.progress ≤ (update_worker_state s events alive).progress := by
  rw [update_worker_state, resolve_liveness_progress]
  exact fold_events_progress_mono s events

/-- C3: progress is monotonically non-decreasing — per folded event, across
every sequence of consecutive full updates (fold plus liveness
reconciliation), and a payload progress field on an otherwise
progress-neutral event is absorbed exactly as `max(current, value)`. -/
theorem claim3_progress_monotone :
    (∀ (s : WorkerState) (e : Event), s.progress ≤ (apply_event s e).progress)
    ∧ (∀ (s : WorkerState) (batches : List (List Event × Option Bool)),
        s.progress ≤
          (batches.foldl (fun st u => update_worker_state st u.1 u.2)
            s).progress)
    ∧ (∀ (s : WorkerState) (e : Event) (value : Nat),
        e.payload.progress = some value →
        e.type ≠ EventType.MILESTONE →
        strContains (strLower e.payload.text) "complete" = false →
        strContains (strLower e.payload.text) "done" = false →
        (apply_event s e).progress = max s.progress value) := by
  refine ⟨apply_event_progress_mono, ?_, ?_⟩
  · intro s batches
    induction batches generalizing s with
    | nil => exact Nat.le_refl _
    | cons u t ih =>
        exact Nat.le_trans (update_worker_state_progress_mono s u.1 u.2)
          (ih (update_worker_state s u.1 u.2))
  · intro s e value hp ht hc hd
    cases hty : e.type
    all_goals first
      | exact absurd hty ht
      | (simp only [apply_event, hp, hty, sync_progress, sync_status, hc, hd]
         (try split_ifs) <;> simp_all)

/-- Witness for C3: a progress-55 event on a worker at progress 30 raises
progress and lands exactly on `max 30 55`. -/
theorem claim3_witness :
    ({ status := WorkerStatus.RUNNING, progress := 30 } :
        WorkerState).progress ≤
      (apply_event { status := WorkerStatus.RUNNING, progress := 30 }
        { type := EventType.PROGRESS, agent := AgentName.CLAUDE,
          payload := { text := "Working", progress := some 55 } }).progress
    ∧ (apply_event { status := WorkerStatus.RUNNING, progress := 30 }
        { type := EventType.PROGRESS, agent := AgentName.CLAUDE,
          payload := { text := "Working", progress := some 55 } }).progress
      = max 30 55 :=
  ⟨claim3_progress_monotone.1 _ _,
   claim3_progress_monotone.2.2
     { status := WorkerStatus.RUNNING, progress := 30 }
     { type := EventType.PROGRESS, agent := AgentName.CLAUDE,
       payload := { text := "Working", progress := some 55 } }
     55 rfl (by decide) (by decide) (by decide)⟩

/-- C4 counterexample: a milestone event on a worker already at progress 95
leaves progress at 95 (the update goes through `max`), whereas
`min(95 + 20, 90) = 90`; so milestone folding does not in general set
progress to `min(progress + 20, 90)`. -/
theorem claim4_counterexample :
    (apply_event { status := WorkerStatus.RUNNING, progress := 95 }
      { type := EventType.MILESTONE, agent := AgentName.CODEX,
        payload := { text := "phase" } }).progress = 95
    ∧ min (95 + 20) 90 = 90
    ∧ (95 : Nat) ≠ min (95 + 20) 90 := by
  decide

/-- C4 amended: folding a milestone event (without a payload progress field
or completion text) sets progress to `max(progress, min(progress + 20, 90))`;
when the prior progress is at most 90 this coincides with the claimed
`min(progress + 20, 90)`, and in every case a milestone alone never brings
progress from below 100 up to 100. -/
theorem claim4_milestone_progress (s : WorkerState) (e : Event)
    (ht : e.type = EventType.MILESTONE)
    (hp : e.payload.progress = none)
    (hc : strContains (strLower e.payload.text) "complete" = false)
    (hd : strContains (strLower e.payload.text) "done" = false) :
    (apply_event s e).progress = max s.progress (min (s.progress + 20) 90)
    ∧ (s.progress ≤ 90 →
        (apply_event s e).progress = min (s.progress + 20) 90)
    ∧ (s.progress < 100 → (apply_event s e).progress < 100) := by
  have h1 : (apply_event s e).progress
      = max s.progress (min (s.progress + 20) 90) := by
    simp [apply_event, hp, ht, sync_progress, sync_status, hc, hd]
  refine ⟨h1, ?_, ?_⟩ <;> intro h <;> rw [h1] <;> omega

/-- Witness for the amended C4: a milestone on a worker at progress 50
moves it to 70 = min(50 + 20, 90), below 100. -/
theorem claim4_witness :
    (apply_event { status := WorkerStatus.RUNNING, progress := 50 }
        { type := EventType.MILESTONE, agent := AgentName.CODEX,
          payload := { text := "phase" } }).progress
      = max 50 (min (50 + 20) 90)
    ∧ (50 : Nat) ≤ 90
    ∧ (apply_event { status := WorkerStatus.RUNNING, progress := 50 }
        { type := EventType.MILESTONE, agent := AgentName.CODEX,
          payload := { text := "phase" } }).progress
      = min (50 + 20) 90 :=
  ⟨(claim4_milestone_progress { status := WorkerStatus.RUNNING, progress := 50 }
      { type := EventType.MILESTONE, agent := AgentName.CODEX,
        payload := { text := "phase" } }
      rfl rfl (by decide) (by decide)).1,
   by decide,
   (claim4_milestone_progress { status := WorkerStatus.RUNNING, progress := 50 }
      { type := EventType.MILESTONE, agent := AgentName.CODEX,
        payload := { text := "phase" } }
      rfl rfl (by decide) (by decide)).2.1 (by decide)⟩

/-- C5: when the process is no longer alive and the status after the fold
is still `RUNNING`, the tracker resolves the status by progress — at least
90 yields `COMPLETED`, anything lower yields `FAILED`. -/
theorem claim5_liveness_resolution (s : WorkerState) (events : List Event)
    (h : (fold_events s events).status = WorkerStatus.RUNNING) :
    (update_worker_state s events (some false)).status =
      (if 90 ≤ (fold_events s events).progress then WorkerStatus.COMPLETED
       else WorkerStatus.FAILED) := by
  rw [update_worker_state, resolve_liveness, if_pos h]
  split_ifs with h90
  · rfl
  · rfl

/-- Witness for C5: a dead process with status `RUNNING` resolves to
`COMPLETED` at progress 95 and to `FAILED` at progress 40. -/
theorem claim5_witness :
    (update_worker_state { status := WorkerStatus.RUNNING, progress := 95 }
        [] (some false)).status = WorkerStatus.COMPLETED
    ∧ (update_worker_state { status := WorkerStatus.RUNNING, progress := 40 }
        [] (some false)).status = WorkerStatus.FAILED :=
  ⟨(claim5_liveness_resolution { status := WorkerStatus.RUNNING, progress := 95 }
      [] rfl).trans (by decide),
   (claim5_liveness_resolution { status := WorkerStatus.RUNNING, progress := 40 }
      [] rfl).trans (by decide)⟩

/-- C6: a non-blank input line whose decode fails yields exactly one
synthetic `ERROR` event carrying the stripped line truncated to 200
characters, appended to whatever was already ingested; `stepLine` and
`read_events` are total functions, so nothing raises past the ingestion
boundary and no unreadable input is discarded. -/
theorem claim6_malformed_line (agent : AgentName) (l : RawLine)
    (hd : l.decoded = none) (hne : strStrip l.text ≠ "") :
    (∀ acc : List Event,
      stepLine agent acc l =
        acc ++ [{ type := EventType.ERROR, agent := agent,
                  payload :=
                    { text := "Malformed JSON: "
                        ++ strTake (strStrip l.text) 200 } }])
    ∧ read_events agent [l] =
        [{ type := EventType.ERROR, agent := agent,
           payload := { text := "Malformed JSON: "
               ++ strTake (strStrip l.text) 200 } }] := by
  have hstep : ∀ acc : List Event,
      stepLine agent acc l =
        acc ++ [{ type := EventType.ERROR, agent := agent,
                  payload :=
                    { text := "Malformed JSON: "
                        ++ strTake (strStrip l.text) 200 } }] := by
    intro acc
    have hbeq : (strStrip l.text == "") = false := by
      simpa using hne
    simp [stepLine, hd, hbeq]
  exact ⟨hstep, by simpa [read_events] using hstep []⟩

/-- Witness for C6: the undecodable line `" not json "` produces exactly
one error event with the truncated stripped text. -/
theorem claim6_witness :
    stepLine AgentName.CODEX [] { text := " not json ", decoded := none } =
      [{ type := EventType.ERROR, agent := AgentName.CODEX,
         payload := { text := "Malformed JSON: not json" } }]
    ∧ read_events AgentName.CODEX
        [{ text := " not json ", decoded := none }] =
      [{ type := EventType.ERROR, agent := AgentName.CODEX,
         payload := { text := "Malformed JSON: not json" } }] := by
  have h := claim6_malformed_line AgentName.CODEX
    { text := " not json ", decoded := none } rfl (by decide)
  refine ⟨(h.1 []).trans ?_, h.2.trans ?_⟩ <;> simp <;> rfl

/-- C7: a decoded value whose `type` field is missing, or whose `type`
value lies outside the closed ten-member enumeration, is rejected by
`_parse_event` (`none`), and ingesting the corresponding line leaves the
event sequence unchanged — no default kind is substituted. -/
theorem claim7_unknown_kind_rejected (agent : AgentName) (data : Json)
    (h : ∀ t, data.get "type" = some t → eventTypeOf t = none) :
    parse_event agent data = none
    ∧ ∀ (l : RawLine) (acc : List Event),
        l.decoded = some data → stepLine agent acc l = acc := by
  have hparse : parse_event agent data = none := by
    rw [parse_event]
    cases hg : data.get "type" with
    | none => rfl
    | some t =>
        by_cases hf : t.falsy
        · simp [hf]
        · simp [hf, h t hg]
  refine ⟨hparse, ?_⟩
  intro l acc hl
  rw [stepLine]
  by_cases hblank : strStrip l.text == ""
  · simp [hblank]
  · simp [hblank, hl, hparse]

/-- Witness for C7: an object with a payload but no `type` field produces
no event, and ingesting it leaves the sequence unchanged (length 0). -/
theorem claim7_witness :
    parse_event AgentName.CODEX (Json.obj [("payload", Json.str "hi")]) = none
    ∧ stepLine AgentName.CODEX []
        { text := "x",
          decoded := some (Json.obj [("payload", Json.str "hi")]) } = [] := by
  have h := claim7_unknown_kind_rejected AgentName.CODEX
    (Json.obj [("payload", Json.str "hi")])
    (fun t ht => Option.noConfusion
      (show (none : Option Json) = some t from ht))
  exact ⟨h.1, h.2 _ [] rfl⟩

/-- C8: for the architect (Gemini) role, the event batch
`[status("x"), error("Path must be within one of the workspace
directories")]` is detected as the role-specific permission tag
`"gemini_permissions"` — neither the generic tag nor no detection. -/
theorem claim8_gemini_permission_tag :
    check_for_errors AgentName.GEMINI
        [{ type := EventType.STATUS, agent := AgentName.GEMINI,
           payload := { text := "x" } },
         { type := EventType.ERROR, agent := AgentName.GEMINI,
           payload :=
             { text := "Path must be within one of the workspace directories" } }]
        []
      = some "gemini_permissions"
    ∧ (some "gemini_permissions" : Option String) ≠ some "generic_permission"
    ∧ (some "gemini_permissions" : Option String) ≠ none := by
  refine ⟨?_, by decide, by decide⟩
  rfl

/-- C9 counterexample: the completion check is not the claimed
"every status terminal AND no live process" predicate — on the empty
worker map the code returns `false` where the claim requires (vacuous)
truth, and for a terminal-status worker whose process is still alive the
code returns `true` where the claim requires `false`. -/
theorem claim9_counterexample :
    (check_completion [] (fun _ => none) = false
      ∧ check_completion_spec [] (fun _ => none) = true)
    ∧ (check_completion
          [(AgentName.GEMINI, { status := WorkerStatus.COMPLETED })]
          (fun _ => some true) = true
      ∧ check_completion_spec
          [(AgentName.GEMINI, { status := WorkerStatus.COMPLETED })]
          (fun _ => some true) = false) := by
  refine ⟨⟨rfl, rfl⟩, rfl, rfl⟩

/-- C9 amended: `check_completion` returns true iff the worker map is
non-empty and every worker whose status is not terminal (completed or
failed) has no registered process that is still running; the processes of
terminal-status workers are never consulted, and the empty map yields
`false`. -/
theorem claim9_completion_characterization
    (workers : List (AgentName × WorkerState))
    (alive : AgentName → Option Bool) :
    check_completion workers alive = true ↔
      workers ≠ [] ∧ ∀ p ∈ workers,
        p.2.status = WorkerStatus.COMPLETED
        ∨ p.2.status = WorkerStatus.FAILED
        ∨ alive p.1 ≠ some true := by
  rw [check_completion]
  rcases workers with _ | ⟨q, t⟩
  · simp
  · rw [if_neg (by simp)]
    simp only [List.all_eq_true, ne_eq, reduceCtorEq, not_false_eq_true,
      true_and]
    constructor
    · intro hall p hp
      have := hall p hp
      by_cases hterm : p.2.status == WorkerStatus.COMPLETED
          || p.2.status == WorkerStatus.FAILED
      · rcases Bool.or_eq_true_iff.mp hterm with h1 | h1
        · exact Or.inl (by simpa using h1)
        · exact Or.inr (Or.inl (by simpa using h1))
      · rw [if_neg (by simp [hterm])] at this
        refine Or.inr (Or.inr ?_)
        intro hlive
        rw [hlive] at this
        simp at this
    · intro hall p hp
      rcases hall p hp with h1 | h1 | h1
      · simp [h1]
      · simp [h1]
      · by_cases hterm : p.2.status == WorkerStatus.COMPLETED
            || p.2.status == WorkerStatus.FAILED
        · simp [hterm]
        · rw [if_neg (by simp [hterm])]
          cases ha : alive p.1 with
          | none => rfl
          | some b =>
              cases b
              · rfl
              · exact absurd ha h1

/-- Witness for the amended C9: a single failed worker with a dead process
completes the session. -/
theorem claim9_witness :
    check_completion
        [(AgentName.CODEX, { status := WorkerStatus.FAILED, progress := 40 })]
        (fun _ => some false) = true :=
  (claim9_completion_characterization
      [(AgentName.CODEX, { status := WorkerStatus.FAILED, progress := 40 })]
      (fun _ => some false)).mpr
    ⟨by simp, by simp⟩

/-- C10: with no last-review time recorded and `force = false`, a review
triggers exactly when some pending event is of kind milestone or blocker
or has text containing "review" case-insensitively — the 15-minute
fallback never fires before the first review, whatever the clock says. -/
theorem claim10_no_fallback_before_first_review (now : Nat)
    (events : List (AgentName × List Event)) :
    should_trigger_review none now events false = true ↔
      ∃ p ∈ events, ∃ e ∈ p.2,
        e.type = EventType.MILESTONE ∨ e.type = EventType.BLOCKER
        ∨ strContains (strLower e.payload.text) "review" = true := by
  have hform : should_trigger_review none now events false
      = events.any (fun p => p.2.any (fun e =>
          (e.type == EventType.MILESTONE || e.type == EventType.BLOCKER)
          || strContains (strLower e.payload.text) "review")) := by
    by_cases h : events.any (fun p => p.2.any (fun e =>
        (e.type == EventType.MILESTONE || e.type == EventType.BLOCKER)
        || strContains (strLower e.payload.text) "review")) = true
    · rw [should_trigger_review]
      simp [h]
    · rw [should_trigger_review]
      simp only [Bool.not_eq_true] at h
      simp [h]
  rw [hform]
  simp only [List.any_eq_true, Bool.or_eq_true, beq_iff_eq, or_assoc]

/-- Witness for C10: with no review ever evaluated and an arbitrarily large
clock value, a milestone event triggers a review. -/
theorem claim10_witness :
    should_trigger_review none 123456789
      [(AgentName.GEMINI,
        [{ type := EventType.MILESTONE, agent := AgentName.GEMINI,
           payload := { text := "m" } }])] false = true :=
  (claim10_no_fallback_before_first_review 123456789
    [(AgentName.GEMINI,
      [{ type := EventType.MILESTONE, agent := AgentName.GEMINI,
         payload := { text := "m" } }])]).mpr
    ⟨(AgentName.GEMINI,
      [{ type := EventType.MILESTONE, agent := AgentName.GEMINI,
         payload := { text := "m" } }]), by simp,
     { type := EventType.MILESTONE, agent := AgentName.GEMINI,
       payload := { text := "m" } }, by simp, Or.inl rfl⟩

end Orchestrator
